import Mathlib

/-!
Shallow embedding of the cosigning pipeline and block auditor of the
nem-nodejs-bot repository.

The embedding mirrors, definition by definition, the JavaScript source:
* the chain-data-layer helpers `getTransactionHash`, `getTransactionAmount`
  (chain data layer source),
* the `MultisigCosignatory` pipeline: `isAcceptedCosignatory`,
  `verifyTransaction`, `signTransaction`,
  `automaticTransactionSigningHandler`, `websocketFallbackHandler`
  (multisig cosignatory source),
* the `BlocksAuditor`: the node-switch selection loop of
  `autoSwitchSocketNode`, the block-height persistence of
  `subscribeToBlockUpdates` / the HTTP fallback, and the staleness check of
  `registerBlockDelayAuditor` (src/blockchain/blocks-auditor.js).

JavaScript numbers that hold XEM amounts are modelled as rationals (all the
arithmetic the code performs on them — sums, division by a power of ten,
multiplication, comparisons — is exact on the values involved); timestamps
(`new Date().valueOf()`) are modelled as integers in milliseconds.
Asynchronous callbacks are sequentialised: every external response a callback
would receive (database query results, the transaction-announce response) is
passed to the modelled function as an explicit argument.
-/

namespace NemBot

/-- NEM SDK constant `model.transactionTypes.multisigTransaction` (0x1004). -/
def multisigTransaction : Nat := 4100

/-- Mosaic identifier, a pair of namespace id and mosaic name
(`mosaic.mosaicId.namespaceId`, `mosaic.mosaicId.name`). -/
structure MosaicId where
  namespaceId : String
  name : String
deriving Repr, DecidableEq

/-- One entry of a transaction's `mosaics` list. -/
structure Mosaic where
  mosaicId : MosaicId
  quantity : ℚ
deriving Repr, DecidableEq

/-- The fields of a NEM transaction content object that the pipeline reads.
For a multisig wrapper, `otherTrans` carries the underlying transaction
(itself without a further wrapper). `mosaics` is `none` when the transaction
carries no mosaic list (JS `undefined`). -/
structure InnerTransaction where
  type : Nat
  signer : String
  amount : ℚ
  mosaics : Option (List Mosaic)
deriving Repr, DecidableEq

/-- Outer transaction content: the inner fields plus the optional multisig
payload `otherTrans` and the announced `signature`. -/
structure Transaction where
  type : Nat
  signer : String
  amount : ℚ
  mosaics : Option (List Mosaic)
  otherTrans : Option InnerTransaction
  signature : String
deriving Repr, DecidableEq

/-- A hash object as appearing in transaction metadata (`hash.data`). -/
structure HashData where
  data : String
deriving Repr, DecidableEq

/-- Transaction metadata: `meta.hash`, `meta.innerHash` (either may be
absent), and the bare `meta.data` fallback the code reads when `meta.hash`
is absent. -/
structure TransactionMeta where
  hash : Option HashData
  innerHash : Option HashData
  data : String
deriving Repr, DecidableEq

/-- A TransactionMetaDataPair as received from the websocket or the NIS API. -/
structure TransactionMetaDataPair where
  meta : TransactionMeta
  transaction : Transaction
deriving Repr, DecidableEq

/-- View of a transaction content as its own `InnerTransaction` fields
(used when the transaction is not a multisig wrapper, or as the JS crash
placeholder when a multisig wrapper lacks `otherTrans`; every theorem about
multisig candidates supplies `otherTrans` explicitly). -/
def Transaction.asInner (content : Transaction) : InnerTransaction :=
  { type := content.type
    signer := content.signer
    amount := content.amount
    mosaics := content.mosaics }

/-- The `trxRealData` / `realContent` selection the source performs:
`isMultisig ? content.otherTrans : content`. -/
def realContentOf (content : Transaction) : InnerTransaction :=
  if content.type = multisigTransaction then
    content.otherTrans.getD content.asInner
  else
    content.asInner

/-- Namespace part of a mosaic slug: the JS regex replace stripping the
final colon together with the non-empty trailing run of non-colon
characters (the slug unchanged when no colon precedes such a run), applied
to the `mosaicSlug` argument. -/
def slugNamespacePart (slug : String) : String :=
  let cs := slug.toList
  let revTail := cs.reverse.takeWhile (fun c => c != ':')
  if revTail.length ≠ 0 ∧ revTail.length ≠ cs.length then
    ⟨(cs.reverse.drop (revTail.length + 1)).reverse⟩
  else slug

/-- Mosaic-name part of a mosaic slug: the JS regex replace stripping the
non-empty leading run of non-colon characters together with the following
colon (the slug unchanged when no colon follows such a run). -/
def slugMosaicPart (slug : String) : String :=
  let cs := slug.toList
  let head := cs.takeWhile (fun c => c != ':')
  if head.length ≠ 0 ∧ head.length ≠ cs.length then
    ⟨cs.drop (head.length + 1)⟩
  else slug

/-- Chain-data-layer `getTransactionHash(transactionMetaDataPair, inner)`:
`meta.hash ? meta.hash.data : meta.data`, overridden by `meta.innerHash.data`
when `inner === true` and the inner hash is present with truthy, non-empty
data. -/
def getTransactionHash (pair : TransactionMetaDataPair) (inner : Bool := true) : String :=
  let meta := pair.meta
  let trxHash := match meta.hash with
    | some h => h.data
    | none => meta.data
  match meta.innerHash with
  | some ih => if inner = true ∧ ih.data.length ≠ 0 then ih.data else trxHash
  | none => trxHash

/-- Chain-data-layer `getTransactionAmount(transactionMetaDataPair,
mosaicSlug = 'nem:xem', divisibility = 6)`: for a mosaic transfer the raw
`amount` field is a multiplier divided by `10^divisibility` and multiplied by
the quantity of the first mosaic matching the slug (`0` when none matches);
otherwise the raw `amount` field itself (`0` when a slug other than
`nem:xem` was requested). -/
def getTransactionAmount (pair : TransactionMetaDataPair)
    (mosaicSlug : String := "nem:xem") (divisibility : Nat := 6) : ℚ :=
  let content := pair.transaction
  let realContent := realContentOf content
  let isMosaic : Bool := match realContent.mosaics with
    | some l => l.length != 0
    | none => false
  let lookupNS := slugNamespacePart mosaicSlug
  let lookupMos := slugMosaicPart mosaicSlug
  if isMosaic then
    let multiplier := realContent.amount / (10 : ℚ) ^ divisibility
    match (realContent.mosaics.getD []).find?
        (fun m => m.mosaicId.namespaceId == lookupNS && m.mosaicId.name == lookupMos) with
    | some mosaic => multiplier * mosaic.quantity
    | none => 0
  else if mosaicSlug ≠ "nem:xem" then 0
  else realContent.amount

/-- bot.sign.cosignatory.acceptFrom: configured either as a single public-key
string or as an array of public keys. -/
inductive AcceptFrom where
  | single (s : String)
  | list (l : List String)
deriving Repr, DecidableEq

/-- The configuration surface the cosigning pipeline reads. -/
structure BotConfig where
  multisigAddress : String
  walletAddress : String
  acceptFrom : AcceptFrom
  dailyAmount : ℚ
  privateKey : String
deriving Repr, DecidableEq

/-- External SDK operations the pipeline calls as a black box, plus the
socket host recorded into persisted rows (`nemsocket_.socketpt`). -/
structure ChainEnv where
  toAddress : String → String
  isPrivateKeyValid : String → Bool
  socketHost : String

/-- JS global replace of every dash character with the empty string. -/
def removeDashes (s : String) : String :=
  ⟨s.toList.filter (fun c => c != '-')⟩

/-- Chain-data-layer `getBotSignMultisigWallet()`: the configured multisig
address with dashes removed. -/
def getBotSignMultisigWallet (cfg : BotConfig) : String :=
  removeDashes cfg.multisigAddress

/-- Chain-data-layer `getBotSignWallet()`: the configured cosignatory wallet
address with dashes removed. -/
def getBotSignWallet (cfg : BotConfig) : String :=
  removeDashes cfg.walletAddress

/-- MultisigCosignatory `isAcceptedCosignatory(cosigPubKey)`: strict equality
against a string-valued `acceptFrom`, membership when it is an array. -/
def isAcceptedCosignatory (cfg : BotConfig) (cosigPubKey : String) : Bool :=
  match cfg.acceptFrom with
  | .single s => s == cosigPubKey
  | .list l => l.any (fun valid => valid == cosigPubKey)

/-- MultisigCosignatory `verifyTransaction(transactionMetaDataPair)`: false
when the initiating signer is not an accepted cosignatory, false when the
address derived from the real (inner, for multisig) signer public key does
not match the configured multisig address, true otherwise (the
signature-bytes check in the source is commented out). -/
def verifyTransaction (env : ChainEnv) (cfg : BotConfig)
    (pair : TransactionMetaDataPair) : Bool :=
  let content := pair.transaction
  let trxRealData := realContentOf content
  let trxInitiatorPubKey := content.signer
  let trxAcctPubKey := trxRealData.signer
  let trxRealAccount := removeDashes (env.toAddress trxAcctPubKey)
  let multisigAccount := cfg.multisigAddress
  if !(isAcceptedCosignatory cfg trxInitiatorPubKey) then false
  else if trxRealAccount != multisigAccount then false
  else true

/-- Outcome of the `transaction.announce` promise handed to
`signTransaction`: either a resolved NIS response with `code` and `message`,
or a rejected promise. -/
inductive AnnounceResult where
  | response (code : Int) (message : String)
  | failed (err : String)
deriving Repr, DecidableEq

/-- What `signTransaction`'s broadcast produced: `callbackInvoked` records
whether the response handler invoked the success callback (the response
passed the `res.code >= 2` failure check and carried message "SUCCESS");
a `failed` promise only logs. One announce call is issued exactly when
`signTransaction` does not throw. -/
structure SignBroadcast where
  callbackInvoked : Bool
deriving Repr, DecidableEq

/-- MultisigCosignatory `signTransaction(transactionMetaDataPair, callback)`:
throws (modelled as `Except.error` with the exact thrown string) when the
configured private key is structurally invalid, then when
`verifyTransaction` fails; otherwise builds, signs and announces the
signature transaction and runs the response handler on `resp`. -/
def signTransaction (env : ChainEnv) (cfg : BotConfig)
    (pair : TransactionMetaDataPair) (resp : AnnounceResult) :
    Except String SignBroadcast :=
  if !(env.isPrivateKeyValid cfg.privateKey) then
    .error "Invalid private key in bot.json, Please fix to start co-signing NEM blockchain transactions."
  else if !(verifyTransaction env cfg pair) then
    .error "Invalid transactionMetaDataPair object provided. Signature could not be verified!"
  else
    .ok { callbackInvoked :=
            match resp with
            | .response code message =>
                if code ≥ 2 then false
                else if message == "SUCCESS" then true
                else false
            | .failed _ => false }

/-- A persisted NEMSignedTransaction row. -/
structure SignedTransactionRecord where
  multisigXEM : String
  cosignerXEM : String
  transactionHash : String
  nemNodeData : String
  transactionData : TransactionMetaDataPair
  amountXEM : ℚ
  createdAt : Int
deriving Repr, DecidableEq

/-- Which exit the signing handler took for one candidate. -/
inductive HandlerOutcome where
  | alreadySigned
  | limitReached
  | limitWouldPass
  | signingAborted (e : String)
  | signAttempted (recordSaved : Bool)
deriving Repr, DecidableEq

/-- Result of one signing-handler invocation: the record store afterwards,
the number of announce calls issued (0 or 1), and the exit taken. -/
structure HandlerResult where
  records : List SignedTransactionRecord
  announces : Nat
  outcome : HandlerOutcome
deriving Repr, DecidableEq

/-- The `$sum: "$amountXEM"` aggregation over NEMSignedTransaction. -/
def aggregateAmountXEM (records : List SignedTransactionRecord) : ℚ :=
  (records.map (fun r => r.amountXEM)).sum

/-- The `dailyAmt` value the handler computes from the aggregation result:
the aggregate when positive, else 0. -/
def clampedDailyAmount (records : List SignedTransactionRecord) : ℚ :=
  if aggregateAmountXEM records > 0 then aggregateAmountXEM records else 0

/-- MultisigCosignatory `automaticTransactionSigningHandler(instance,
transactionMetaDataPair)`, sequentialised: look up the hash in the store and
no-op when found; clamp the aggregate to 0 when non-positive; reject when a
positive `dailyAmount` is configured and the aggregate already meets it, or
would be passed by adding this candidate's amount; otherwise call
`signTransaction` inside try/catch, appending a new row exactly when the
success callback ran. The source's database-read error branch (log and
return) is outside every claim and not modelled. -/
def automaticTransactionSigningHandler (env : ChainEnv) (cfg : BotConfig)
    (records : List SignedTransactionRecord) (pair : TransactionMetaDataPair)
    (resp : AnnounceResult) (now : Int) : HandlerResult :=
  let multiAddress := getBotSignMultisigWallet cfg
  let cosigAddress := getBotSignWallet cfg
  let trxHash := getTransactionHash pair
  match records.find? (fun r => r.transactionHash == trxHash) with
  | some _ => { records := records, announces := 0, outcome := .alreadySigned }
  | none =>
    let dailyAmt := clampedDailyAmount records
    let dailyMax := cfg.dailyAmount
    if dailyMax > 0 ∧ dailyAmt ≥ dailyMax then
      { records := records, announces := 0, outcome := .limitReached }
    else
      let trxAmount := getTransactionAmount pair
      if dailyMax > 0 ∧ dailyAmt + trxAmount > dailyMax then
        { records := records, announces := 0, outcome := .limitWouldPass }
      else
        match signTransaction env cfg pair resp with
        | .error e => { records := records, announces := 0, outcome := .signingAborted e }
        | .ok b =>
          if b.callbackInvoked then
            { records := records ++
                [{ multisigXEM := multiAddress
                   cosignerXEM := cosigAddress
                   transactionHash := trxHash
                   nemNodeData := env.socketHost
                   transactionData := pair
                   amountXEM := trxAmount
                   createdAt := now }]
              announces := 1
              outcome := .signAttempted true }
          else
            { records := records, announces := 1, outcome := .signAttempted false }

/-- JS property read of `type` on a metadata-pair object, as the fallback
loop performs with `transaction.type` where `transaction = unconfirmed[i]`
is the whole pair: the pair object carries only `meta` and `transaction`
properties, so the read yields undefined. -/
def TransactionMetaDataPair.typeProperty (_ : TransactionMetaDataPair) : Option Nat :=
  none

/-- JS loose inequality between a possibly-undefined number property and a
number: undefined is never loosely equal to a number, so the comparison is
true whenever the property is absent. -/
def looseNeqNum : Option Nat → Nat → Bool
  | none, _ => true
  | some a, b => a != b

/-- MultisigCosignatory `websocketFallbackHandler(instance)`: iterate the
unconfirmed transactions fetched for the multisig account and route
multisig ones to the signing handler (each element carries the announce
response its broadcast would receive). The source's filter reads
`transaction.type` on the metadata-pair object itself — a property the
pair does not have — so the undefined value compares unequal to the
multisig type and the `continue` branch is taken for every element: the
fallback loop as written never reaches the signing handler. Returns the
record store afterwards and the total number of announce calls. -/
def websocketFallbackHandler (env : ChainEnv) (cfg : BotConfig)
    (records : List SignedTransactionRecord)
    (unconfirmed : List (TransactionMetaDataPair × AnnounceResult)) (now : Int) :
    List SignedTransactionRecord × Nat :=
  unconfirmed.foldl
    (fun acc pr =>
      if looseNeqNum pr.1.typeProperty multisigTransaction then acc
      else
        let res := automaticTransactionSigningHandler env cfg acc.1 pr.1 pr.2 now
        (res.records, acc.2 + res.announces))
    (records, 0)

/-- A sequence of unconfirmed-transaction push messages delivered in order
to the `/unconfirmed/{multisigAddress}` subscription callback registered by
`connectBlockchainSocket`: each parsed message is dropped unless its
transaction content's `type` is the multisig type (this path reads
`transactionData.transaction` first, so the filter works), and is otherwise
routed to the signing handler, the record store threading through. Returns
the store afterwards and the total number of announce calls. -/
def processUnconfirmedPushMessages (env : ChainEnv) (cfg : BotConfig)
    (records : List SignedTransactionRecord)
    (messages : List (TransactionMetaDataPair × AnnounceResult)) (now : Int) :
    List SignedTransactionRecord × Nat :=
  messages.foldl
    (fun acc pr =>
      if pr.1.transaction.type != multisigTransaction then acc
      else
        let res := automaticTransactionSigningHandler env cfg acc.1 pr.1 pr.2 now
        (res.records, acc.2 + res.announces))
    (records, 0)

/-- A configured NEM node entry (host and port) from the candidate list. -/
structure NodeEndpoint where
  host : String
  port : Nat
deriving Repr, DecidableEq

/-- Index drawn by one iteration of the selection loop in
`autoSwitchSocketNode`: `Math.floor(Math.random() * (cntNodes - 1))`, with
`r` the value returned by `Math.random()`. -/
def switchCandidateIdx (r : ℚ) (cntNodes : Nat) : ℤ :=
  Int.floor (r * ((cntNodes : ℚ) - 1))

/-- The node read by one iteration of the selection loop:
`nodesList[randomIdx]`. -/
def switchCandidate (nodesList : List NodeEndpoint) (r : ℚ) : Option NodeEndpoint :=
  nodesList.get? (switchCandidateIdx r nodesList.length).toNat

/-- The do/while selection loop of `autoSwitchSocketNode`, unrolled with
explicit fuel over a stream of `Math.random()` values: pick
`nodesList[Math.floor(random * (cntNodes - 1))]` and repeat while the
picked host equals the currently active host. `none` means the fuel ran out
with every iteration re-looping (or an out-of-range index was read). -/
def autoSwitchSelectAux (nodesList : List NodeEndpoint) (currentHost : String)
    (randoms : Nat → ℚ) : Nat → Nat → Option NodeEndpoint
  | _, 0 => none
  | i, fuel + 1 =>
    match switchCandidate nodesList (randoms i) with
    | none => none
    | some next =>
        if next.host == currentHost then
          autoSwitchSelectAux nodesList currentHost randoms (i + 1) fuel
        else
          some next

/-- Selection loop of `autoSwitchSocketNode` started at the first random
draw. -/
def autoSwitchSelect (nodesList : List NodeEndpoint) (currentHost : String)
    (randoms : Nat → ℚ) (fuel : Nat) : Option NodeEndpoint :=
  autoSwitchSelectAux nodesList currentHost randoms 0 fuel

/-- A persisted NEMBlockHeight row. -/
structure HeightRecord where
  moduleName : String
  blockHeight : Nat
  createdAt : Int
deriving Repr, DecidableEq

/-- The observable steps the staleness-check callback of
`registerBlockDelayAuditor` can take, in order. -/
inductive AuditAction where
  | clearTimer
  | fetchLatestHeight
  | waitSettle (ms : Nat)
  | disconnectSocket
  | switchEndpoint
  | reconnectSocket
  | resubscribe
deriving Repr, DecidableEq

/-- The endpoint-switch sequence the staleness branch performs:
`clearInterval`, one fresh height pull via the HTTP fallback, a 3-second
settle delay, then `autoSwitchSocketNode` (disconnect, install the newly
selected endpoint, reconnect). -/
def nodeSwitchSequence : List AuditAction :=
  [.clearTimer, .fetchLatestHeight, .waitSettle 3000,
   .disconnectSocket, .switchEndpoint, .reconnectSocket]

/-- One firing of the interval callback registered by
`registerBlockDelayAuditor`, as a function of the `findOne` result for the
latest NEMBlockHeight of this module (sorted by descending height) and the
current time in milliseconds: a database read error clears the timer and
resubscribes without switching; otherwise the switch sequence runs exactly
when no row exists or `block.createdAt <= now - 5 * 60 * 1000`. -/
def blockDelayAuditCheck (dbResult : Except String (Option HeightRecord))
    (now : Int) : List AuditAction :=
  match dbResult with
  | .error _ => [.clearTimer, .resubscribe]
  | .ok none => nodeSwitchSequence
  | .ok (some b) =>
    if b.createdAt ≤ now - 5 * 60 * 1000 then nodeSwitchSequence else []

/-- The `findOne({ moduleName }, null, { sort: { blockHeight: -1 } })`
query: the stored row of this module with the greatest blockHeight. -/
def findLatestHeight (store : List HeightRecord) (m : String) :
    Option HeightRecord :=
  (store.filter (fun b => b.moduleName == m)).foldl
    (fun acc b =>
      match acc with
      | none => some b
      | some a => if b.blockHeight > a.blockHeight then some b else some a)
    none

/-- The height-persistence logic both block-height paths inline verbatim:
`findOne({ moduleName, blockHeight })`, and only when no row is found,
construct and save a new NEMBlockHeight row. Existing rows are neither
updated nor deleted. -/
def saveBlockHeightIfAbsent (store : List HeightRecord) (m : String)
    (height : Nat) (now : Int) : List HeightRecord :=
  match store.find? (fun b => b.moduleName == m && b.blockHeight == height) with
  | some _ => store
  | none => store ++ [{ moduleName := m, blockHeight := height, createdAt := now }]

/-- The body of the `/blocks/new` subscription callback in
`subscribeToBlockUpdates`, applied to the parsed message height. -/
def onNewBlockMessage : List HeightRecord → String → Nat → Int → List HeightRecord :=
  saveBlockHeightIfAbsent

/-- The body of the BlocksAuditor `websocketFallbackHandler` resolve
continuation, applied to the fetched chain height `res.height`. -/
def fallbackHeightSave : List HeightRecord → String → Nat → Int → List HeightRecord :=
  saveBlockHeightIfAbsent

/-- Number of stored rows for one (moduleName, blockHeight) pair. -/
def countHeightRecords (store : List HeightRecord) (m : String)
    (height : Nat) : Nat :=
  (store.filter (fun b => b.moduleName == m && b.blockHeight == height)).length

/-- Count of persisted signed-transaction rows carrying one hash. -/
def countSignedRecords (records : List SignedTransactionRecord) (h : String) : Nat :=
  (records.filter (fun r => r.transactionHash == h)).length

/-- The handler exited through one of the two daily-limit rejections. -/
def HandlerResult.rejectedByLimit (res : HandlerResult) : Prop :=
  res.outcome = .limitReached ∨ res.outcome = .limitWouldPass

/-- The handler reached `signTransaction`: it either aborted inside the
try/catch or issued the broadcast. -/
def HandlerResult.proceededToSigning (res : HandlerResult) : Prop :=
  (∃ e, res.outcome = .signingAborted e) ∨ ∃ b, res.outcome = .signAttempted b

/-- Truthy, non-empty inner-hash data, the condition the hash-selection
claim describes. -/
def hasNonemptyInnerHash (meta : TransactionMeta) : Bool :=
  match meta.innerHash with
  | some ih => ih.data != ""
  | none => false

/-- The hash-selection rule as the specification words it: the inner hash
data whenever an inner hash with non-empty data is present, otherwise the
outer hash data when present, otherwise the bare metadata field. Stated
independently of `getTransactionHash` to be compared with it. -/
def claimedHashRule (pair : TransactionMetaDataPair) : String :=
  if hasNonemptyInnerHash pair.meta then
    (pair.meta.innerHash.getD { data := "" }).data
  else
    match pair.meta.hash with
    | some h => h.data
    | none => pair.meta.data

/-! Concrete fixtures used by witnesses and counterexamples. -/

/-- Environment whose SDK derives the configured multisig address for every
public key and accepts every private key. -/
def testEnv : ChainEnv :=
  { toAddress := fun _ => "TESTMULTISIGADDRESS"
    isPrivateKeyValid := fun _ => true
    socketHost := "alice6.nem.ninja" }

/-- Environment whose SDK rejects every private key as structurally
invalid. -/
def badKeyEnv : ChainEnv :=
  { toAddress := fun _ => "TESTMULTISIGADDRESS"
    isPrivateKeyValid := fun _ => false
    socketHost := "alice6.nem.ninja" }

/-- Configuration accepting one cosignatory public key, with a daily
ceiling of 100. -/
def testConfig : BotConfig :=
  { multisigAddress := "TESTMULTISIGADDRESS"
    walletAddress := "TESTCOSIGNERADDRESS"
    acceptFrom := .single "initiatorPublicKey"
    dailyAmount := 100
    privateKey := "testPrivateKey" }

/-- A multisig-wrapped transfer of 10 XEM from the watched multisig
account, initiated by the accepted cosignatory, with inner hash
INNERHASHABC. -/
def testPair : TransactionMetaDataPair :=
  { meta := { hash := some { data := "OUTERHASH" }
              innerHash := some { data := "INNERHASHABC" }
              data := "" }
    transaction :=
      { type := multisigTransaction
        signer := "initiatorPublicKey"
        amount := 0
        mosaics := none
        otherTrans := some { type := 257
                             signer := "multisigAccountPublicKey"
                             amount := 10
                             mosaics := none }
        signature := "deadbeef" } }

/-- Same configuration with a daily ceiling of 10. -/
def c3Config : BotConfig :=
  { multisigAddress := "TESTMULTISIGADDRESS"
    walletAddress := "TESTCOSIGNERADDRESS"
    acceptFrom := .single "initiatorPublicKey"
    dailyAmount := 10
    privateKey := "testPrivateKey" }

/-- A previously persisted row of 10 XEM for a different hash, making the
stored aggregate exactly equal the ceiling of `c3Config`. -/
def c3PriorRecord : SignedTransactionRecord :=
  { multisigXEM := "TESTMULTISIGADDRESS"
    cosignerXEM := "TESTCOSIGNERADDRESS"
    transactionHash := "PRIORHASH"
    nemNodeData := "alice6.nem.ninja"
    transactionData := testPair
    amountXEM := 10
    createdAt := 0 }

/-- A multisig-wrapped transfer whose extracted amount is 0. -/
def c3ZeroPair : TransactionMetaDataPair :=
  { meta := { hash := some { data := "C3HASH" }, innerHash := none, data := "" }
    transaction :=
      { type := multisigTransaction
        signer := "initiatorPublicKey"
        amount := 0
        mosaics := none
        otherTrans := some { type := 257
                             signer := "multisigAccountPublicKey"
                             amount := 0
                             mosaics := none }
        signature := "deadbeef" } }

/-- A plain (non-multisig, no mosaic list) transfer with raw amount field
5,000,000 micro-XEM. -/
def c4PlainPair : TransactionMetaDataPair :=
  { meta := { hash := some { data := "C4PLAINHASH" }, innerHash := none, data := "" }
    transaction :=
      { type := 257
        signer := "somePublicKey"
        amount := 5000000
        mosaics := none
        otherTrans := none
        signature := "deadbeef" } }

/-- The nem:xem mosaic with quantity 2,000,000. -/
def xemMosaic : Mosaic :=
  { mosaicId := { namespaceId := "nem", name := "xem" }, quantity := 2000000 }

/-- A mosaic transfer with raw amount field 3 carrying the nem:xem mosaic
with quantity 2,000,000. -/
def c4MosaicPair : TransactionMetaDataPair :=
  { meta := { hash := some { data := "C4MOSAICHASH" }, innerHash := none, data := "" }
    transaction :=
      { type := 257
        signer := "somePublicKey"
        amount := 3
        mosaics := some [xemMosaic]
        otherTrans := none
        signature := "deadbeef" } }

/-- A mosaic transfer carrying only a mosaic other than nem:xem. -/
def c4AbsentMosaicPair : TransactionMetaDataPair :=
  { meta := { hash := some { data := "C4ABSENTHASH" }, innerHash := none, data := "" }
    transaction :=
      { type := 257
        signer := "somePublicKey"
        amount := 3
        mosaics := some [{ mosaicId := { namespaceId := "other", name := "token" }
                           quantity := 500 }]
        otherTrans := none
        signature := "deadbeef" } }

/-- The same multisig-wrapped transfer as testPair but initiated by a
public key that is not on the configured allow-list. -/
def c2EvilPair : TransactionMetaDataPair :=
  { meta := { hash := some { data := "OUTERHASH" }
              innerHash := some { data := "INNERHASHABC" }
              data := "" }
    transaction :=
      { type := multisigTransaction
        signer := "unlistedPublicKey"
        amount := 0
        mosaics := none
        otherTrans := some { type := 257
                             signer := "multisigAccountPublicKey"
                             amount := 10
                             mosaics := none }
        signature := "deadbeef" } }

/-- First node of the two-node failover fixture; its host is the currently
active one. -/
def nodeA : NodeEndpoint := { host := "bigalice2.nem.ninja", port := 7890 }

/-- Second node of the two-node failover fixture, the only configured
alternative host. -/
def nodeB : NodeEndpoint := { host := "alice6.nem.ninja", port := 7890 }

/-! Theorems. -/

/-- A string has length zero exactly when it is the empty string. -/
theorem string_length_eq_zero_iff (s : String) : s.length = 0 ↔ s = "" := by
  constructor
  · intro h
    cases s with
    | mk data =>
      simp [String.length] at h
      simp [h]
  · intro h
    simp [h]

/-- C10: with its default inner flag, getTransactionHash returns the inner
hash data whenever an inner hash with non-empty data is present, otherwise
the outer hash data when present, otherwise the bare metadata field — so
the idempotency key of a multisig transaction is its inner transaction
hash, not the outer wrapper's hash. -/
theorem C10_hash_selection (pair : TransactionMetaDataPair) :
    getTransactionHash pair = claimedHashRule pair := by
  unfold getTransactionHash claimedHashRule hasNonemptyInnerHash
  cases hih : pair.meta.innerHash with
  | none => simp [hih]
  | some ih =>
    by_cases hd : ih.data = ""
    · simp [hih, hd, string_length_eq_zero_iff]
    · have hlen : ih.data.length ≠ 0 := by
        rw [Ne, string_length_eq_zero_iff]
        exact hd
      simp [hih, hd, hlen]

/-- C8: one firing of the staleness-check interval (with the database read
succeeding) performs the endpoint-switch sequence — cancel timer, fresh
height pull, 3-second settle delay, disconnect, switch endpoint,
reconnect — exactly when the latest stored height row of the module is
absent or at least five minutes old at check time, and performs nothing at
all exactly when that row is within the threshold. -/
theorem C8_staleness_switch_iff (store : List HeightRecord) (m : String) (now : Int) :
    (blockDelayAuditCheck (.ok (findLatestHeight store m)) now = nodeSwitchSequence
      ↔ (findLatestHeight store m = none ∨
         ∃ b, findLatestHeight store m = some b ∧ b.createdAt ≤ now - 5 * 60 * 1000))
    ∧ (blockDelayAuditCheck (.ok (findLatestHeight store m)) now = []
      ↔ ∃ b, findLatestHeight store m = some b ∧ now - 5 * 60 * 1000 < b.createdAt) := by
  cases hb : findLatestHeight store m with
  | none =>
      simp [blockDelayAuditCheck, nodeSwitchSequence]
  | some b =>
      by_cases hc : b.createdAt ≤ now - 5 * 60 * 1000
      · have hrun : blockDelayAuditCheck (.ok (some b)) now = nodeSwitchSequence := by
          simp only [blockDelayAuditCheck]
          exact if_pos hc
        refine ⟨⟨fun _ => Or.inr ⟨b, rfl, hc⟩, fun _ => hrun⟩,
          ⟨fun hempty => ?_, fun hex => ?_⟩⟩
        · rw [hrun] at hempty
          simp [nodeSwitchSequence] at hempty
        · obtain ⟨b2, hb2, hlt⟩ := hex
          cases hb2
          omega
      · have hrun : blockDelayAuditCheck (.ok (some b)) now = [] := by
          simp only [blockDelayAuditCheck]
          exact if_neg hc
        refine ⟨⟨fun heq => ?_, fun hor => ?_⟩,
          ⟨fun _ => ⟨b, rfl, by omega⟩, fun _ => hrun⟩⟩
        · rw [hrun] at heq
          simp [nodeSwitchSequence] at heq
        · obtain (h1 | ⟨b2, hb2, hle⟩) := hor
          · exact absurd h1 (by simp)
          · cases hb2
            exact absurd hle hc

/-- C9: the block-height store keeps at most one row per
(moduleName, blockHeight): delivering the identical height twice — through
the push path, or through the push path followed by the HTTP fallback —
changes nothing the second time; a first delivery on a store without the
pair yields exactly one row for it; existing rows are never removed or
modified; the at-most-one invariant is preserved; and a save either leaves
the store unchanged or appends exactly the one new row. -/
theorem C9_height_store_unique (store : List HeightRecord) (m : String)
    (h : Nat) (t1 t2 : Int) :
    (onNewBlockMessage (onNewBlockMessage store m h t1) m h t2
        = onNewBlockMessage store m h t1)
    ∧ (fallbackHeightSave (onNewBlockMessage store m h t1) m h t2
        = onNewBlockMessage store m h t1)
    ∧ (countHeightRecords store m h = 0 →
        countHeightRecords (onNewBlockMessage store m h t1) m h = 1)
    ∧ (∀ r ∈ store, r ∈ saveBlockHeightIfAbsent store m h t1)
    ∧ ((∀ m2 h2, countHeightRecords store m2 h2 ≤ 1) →
        ∀ m2 h2, countHeightRecords (saveBlockHeightIfAbsent store m h t1) m2 h2 ≤ 1)
    ∧ (saveBlockHeightIfAbsent store m h t1 = store ∨
        saveBlockHeightIfAbsent store m h t1
          = store ++ [{ moduleName := m, blockHeight := h, createdAt := t1 }]) := by
  unfold onNewBlockMessage fallbackHeightSave
  cases hf : store.find? (fun b => b.moduleName == m && b.blockHeight == h) with
  | some x =>
    have hsaveAny : ∀ t : Int, saveBlockHeightIfAbsent store m h t = store := by
      intro t
      simp only [saveBlockHeightIfAbsent, hf]
    have hx := List.find?_some hf
    have hxmem := List.mem_of_find?_eq_some hf
    refine ⟨?_, ?_, ?_, ?_, ?_, ?_⟩
    · rw [hsaveAny t1]
      exact hsaveAny t2
    · rw [hsaveAny t1]
      exact hsaveAny t2
    · intro hcount
      exfalso
      unfold countHeightRecords at hcount
      have hnil := List.length_eq_zero.mp hcount
      have := (List.filter_eq_nil_iff.mp hnil) x hxmem
      exact this hx
    · intro r hr
      rw [hsaveAny t1]
      exact hr
    · intro hinv m2 h2
      rw [hsaveAny t1]
      exact hinv m2 h2
    · exact Or.inl (hsaveAny t1)
  | none =>
    have hnewRow : ∀ t : Int,
        ({ moduleName := m, blockHeight := h, createdAt := t } : HeightRecord).moduleName == m
          && ({ moduleName := m, blockHeight := h, createdAt := t } : HeightRecord).blockHeight == h := by
      intro t
      simp
    have hsave1 : saveBlockHeightIfAbsent store m h t1
        = store ++ [{ moduleName := m, blockHeight := h, createdAt := t1 }] := by
      simp only [saveBlockHeightIfAbsent, hf]
    have hnall := List.find?_eq_none.mp hf
    have hfilter : store.filter (fun b => b.moduleName == m && b.blockHeight == h) = [] :=
      List.filter_eq_nil_iff.mpr hnall
    have hfindSingle : ([({ moduleName := m, blockHeight := h, createdAt := t1 } : HeightRecord)]).find?
        (fun b => b.moduleName == m && b.blockHeight == h)
        = some { moduleName := m, blockHeight := h, createdAt := t1 } := by
      simp [List.find?]
    have hfind2 : (store ++ [({ moduleName := m, blockHeight := h, createdAt := t1 } : HeightRecord)]).find?
        (fun b => b.moduleName == m && b.blockHeight == h)
        = some { moduleName := m, blockHeight := h, createdAt := t1 } := by
      rw [List.find?_append, hf, hfindSingle]
      rfl
    have hsave2 : saveBlockHeightIfAbsent
        (store ++ [{ moduleName := m, blockHeight := h, createdAt := t1 }]) m h t2
        = store ++ [{ moduleName := m, blockHeight := h, createdAt := t1 }] := by
      simp only [saveBlockHeightIfAbsent, hfind2]
    refine ⟨?_, ?_, ?_, ?_, ?_, ?_⟩
    · rw [hsave1]
      exact hsave2
    · rw [hsave1]
      exact hsave2
    · intro _
      unfold countHeightRecords
      rw [hsave1, List.filter_append, hfilter]
      simp
    · intro r hr
      rw [hsave1]
      exact List.mem_append_left _ hr
    · intro hinv m2 h2
      rw [hsave1]
      unfold countHeightRecords
      rw [List.filter_append]
      by_cases hq : m2 = m ∧ h2 = h
      · obtain ⟨hm, hh⟩ := hq
        subst hm
        subst hh
        simp [hfilter]
      · have hsingle : (([{ moduleName := m, blockHeight := h, createdAt := t1 }] :
            List HeightRecord).filter (fun b => b.moduleName == m2 && b.blockHeight == h2)) = [] := by
          rw [List.filter_eq_nil_iff]
          intro a ha
          simp at ha
          subst ha
          simp only [Bool.and_eq_true, beq_iff_eq]
          intro hcontra
          exact hq ⟨hcontra.1.symm, hcontra.2.symm⟩
        rw [hsingle, List.append_nil]
        exact hinv m2 h2
    · exact Or.inr hsave1

/-- C7 (code evidence): with a candidate list of two distinct hosts whose
first entry is the currently active host, every iteration of the selection
loop in autoSwitchSocketNode draws index ⌊r·(count−1)⌋ = 0 — the active
host — so the do/while guard never passes and the loop never terminates,
for every stream of Math.random values and every amount of fuel. -/
theorem C7_switch_loop_never_terminates (randoms : Nat → ℚ)
    (hr : ∀ n, 0 ≤ randoms n ∧ randoms n < 1) (fuel : Nat) :
    autoSwitchSelect [nodeA, nodeB] nodeA.host randoms fuel = none := by
  unfold autoSwitchSelect
  suffices haux : ∀ f i, autoSwitchSelectAux [nodeA, nodeB] nodeA.host randoms i f = none from
    haux fuel 0
  intro f
  induction f with
  | zero =>
    intro i
    rfl
  | succ f ih =>
    intro i
    have hfloor : switchCandidateIdx (randoms i) ([nodeA, nodeB].length) = 0 := by
      unfold switchCandidateIdx
      have h0 := (hr i).1
      have h1 := (hr i).2
      have h2 : (([nodeA, nodeB].length : ℚ) - 1) = 1 := by norm_num
      rw [h2, mul_one]
      exact Int.floor_eq_zero_iff.mpr (Set.mem_Ico.mpr ⟨h0, h1⟩)
    have hcand : switchCandidate [nodeA, nodeB] (randoms i) = some nodeA := by
      unfold switchCandidate
      rw [hfloor]
      rfl
    simp only [autoSwitchSelectAux, hcand, beq_self_eq_true, if_true]
    exact ih (i + 1)

/-- Fixed slug split: the namespace part of the default slug. -/
theorem slugNamespacePart_default : slugNamespacePart "nem:xem" = "nem" := by decide

/-- Fixed slug split: the mosaic-name part of the default slug. -/
theorem slugMosaicPart_default : slugMosaicPart "nem:xem" = "xem" := by decide

/-- C4 (counterexample): a non-asset transfer whose raw amount field is
5,000,000 yields 5,000,000 from getTransactionAmount — the raw micro-XEM
value — not 5.0 as the claim's illustration asserts. -/
theorem C4_raw_amount_counterexample :
    getTransactionAmount c4PlainPair = 5000000 ∧ getTransactionAmount c4PlainPair ≠ 5 := by
  have hval : getTransactionAmount c4PlainPair = 5000000 := by
    unfold getTransactionAmount c4PlainPair realContentOf Transaction.asInner multisigTransaction
    norm_num
  refine ⟨hval, ?_⟩
  rw [hval]
  norm_num

/-- C4 (amended): getTransactionAmount follows the stated extraction
policy, with results in the raw units of the source: with no (or an empty)
mosaic list it returns the raw amount field itself, so raw 5,000,000
yields 5,000,000 (5.0 XEM expressed in micro-units); with a non-empty
mosaic list it returns (raw amount / 10^6) multiplied by the quantity of
the first mosaic whose (namespaceId, name) equals (nem, xem), and 0 when
no mosaic matches. -/
theorem C4_amount_extraction_policy (pair : TransactionMetaDataPair) :
    ((realContentOf pair.transaction).mosaics.getD [] = [] →
      getTransactionAmount pair = (realContentOf pair.transaction).amount)
    ∧ (∀ l, (realContentOf pair.transaction).mosaics = some l → l ≠ [] →
        getTransactionAmount pair =
          match l.find? (fun mo => mo.mosaicId.namespaceId == "nem"
              && mo.mosaicId.name == "xem") with
          | some mosaic => (realContentOf pair.transaction).amount / (10:ℚ) ^ 6 * mosaic.quantity
          | none => 0) := by
  constructor
  · intro hnil
    unfold getTransactionAmount
    cases hm : (realContentOf pair.transaction).mosaics with
    | none => simp [hm]
    | some l =>
      rw [hm] at hnil
      simp only [Option.getD_some] at hnil
      subst hnil
      simp [hm]
  · intro l hm hne
    have hlen : (l.length != 0) = true := by
      simpa using hne
    unfold getTransactionAmount
    simp only [hm, hlen, Option.getD_some, slugNamespacePart_default, slugMosaicPart_default,
      if_true]

/-- Witness for C7: the failing configuration evaluated — two distinct
configured hosts with the active one first and a fair-coin random stream
exhaust 1000 loop iterations without ever selecting a node. -/
theorem C7_switch_loop_never_terminates_witness :
    autoSwitchSelect [nodeA, nodeB] nodeA.host (fun _ => (1:ℚ)/2) 1000 = none :=
  C7_switch_loop_never_terminates (fun _ => (1:ℚ)/2)
    (fun _ => ⟨by norm_num, by norm_num⟩) 1000

/-- Witness for C4: the extraction policy applied to the three
illustration inputs — raw 5,000,000 without mosaics, raw multiplier 3
with a matching nem:xem quantity of 2,000,000, and a list without the
target mosaic. -/
theorem C4_amount_extraction_policy_witness :
    getTransactionAmount c4PlainPair = 5000000
    ∧ getTransactionAmount c4MosaicPair = 6
    ∧ getTransactionAmount c4AbsentMosaicPair = 0 := by
  refine ⟨(C4_amount_extraction_policy c4PlainPair).1 rfl, ?_, ?_⟩
  · have h := (C4_amount_extraction_policy c4MosaicPair).2 [xemMosaic] rfl (by simp)
    rw [h]
    norm_num [List.find?, xemMosaic, c4MosaicPair, realContentOf, Transaction.asInner,
      multisigTransaction]
  · have h := (C4_amount_extraction_policy c4AbsentMosaicPair).2
      [{ mosaicId := { namespaceId := "other", name := "token" }, quantity := 500 }] rfl
      (by simp)
    rw [h]
    rfl

/-- C2: a candidate whose originating signer public key is not in the
configured allow-list never produces a broadcast and never persists a
SignedTransactionRecord, regardless of its amount or account match:
verifyTransaction returns false, and signTransaction throws before
signing. -/
theorem C2_allowlist_enforcement (env : ChainEnv) (cfg : BotConfig)
    (records : List SignedTransactionRecord) (pair : TransactionMetaDataPair)
    (resp : AnnounceResult) (now : Int)
    (h : isAcceptedCosignatory cfg pair.transaction.signer = false) :
    verifyTransaction env cfg pair = false
    ∧ (∃ e, signTransaction env cfg pair resp = .error e)
    ∧ (automaticTransactionSigningHandler env cfg records pair resp now).records = records
    ∧ (automaticTransactionSigningHandler env cfg records pair resp now).announces = 0 := by
  have hver : verifyTransaction env cfg pair = false := by
    unfold verifyTransaction
    simp [h]
  have hsign : ∃ e, signTransaction env cfg pair resp = .error e := by
    unfold signTransaction
    cases hk : env.isPrivateKeyValid cfg.privateKey
    · exact ⟨_, rfl⟩
    · rw [hver]
      exact ⟨_, rfl⟩
  obtain ⟨e, he⟩ := hsign
  have hres : (automaticTransactionSigningHandler env cfg records pair resp now).records = records
      ∧ (automaticTransactionSigningHandler env cfg records pair resp now).announces = 0 := by
    unfold automaticTransactionSigningHandler
    cases hf : records.find? (fun r => r.transactionHash == getTransactionHash pair) with
    | some x => simp [hf]
    | none =>
      simp only [hf]
      split_ifs with h1 h2
      · exact ⟨rfl, rfl⟩
      · exact ⟨rfl, rfl⟩
      · rw [he]
        exact ⟨rfl, rfl⟩
  exact ⟨hver, ⟨e, he⟩, hres.1, hres.2⟩

/-- Witness for C2: the unlisted-signer candidate evaluated in the test
environment — verification fails, signTransaction throws, nothing is
persisted and nothing announced. -/
theorem C2_allowlist_enforcement_witness :
    verifyTransaction testEnv testConfig c2EvilPair = false
    ∧ (∃ e, signTransaction testEnv testConfig c2EvilPair (.response 1 "SUCCESS") = .error e)
    ∧ (automaticTransactionSigningHandler testEnv testConfig [] c2EvilPair
        (.response 1 "SUCCESS") 0).records = []
    ∧ (automaticTransactionSigningHandler testEnv testConfig [] c2EvilPair
        (.response 1 "SUCCESS") 0).announces = 0 :=
  C2_allowlist_enforcement testEnv testConfig [] c2EvilPair (.response 1 "SUCCESS") 0 (by decide)

/-- The fallback loop as written never routes any element to the signing
handler: the type filter reads a property the metadata-pair object does
not have, the undefined value compares unequal to the multisig type, and
every element takes the continue branch — the store and the announce
count come back untouched for every input. -/
theorem websocketFallbackHandler_skips_all (env : ChainEnv) (cfg : BotConfig)
    (records : List SignedTransactionRecord)
    (unconfirmed : List (TransactionMetaDataPair × AnnounceResult)) (now : Int) :
    websocketFallbackHandler env cfg records unconfirmed now = (records, 0) := by
  unfold websocketFallbackHandler
  induction unconfirmed with
  | nil => rfl
  | cons hd tl ih =>
    rw [List.foldl_cons]
    exact ih

/-- C6: with a structurally invalid configured private key,
signTransaction throws its configuration error before any signature is
built or broadcast; the signing handler's try/catch confines the failure —
no record is persisted, nothing is announced, a candidate that reaches the
signing step exits as signingAborted with that exact error — and the push
stream that feeds candidates to the handler simply moves on: delivering
the failing candidate before the remaining messages leaves their
processing exactly as if it had never arrived. -/
theorem C6_invalid_private_key_confined (env : ChainEnv) (cfg : BotConfig)
    (records : List SignedTransactionRecord) (pair : TransactionMetaDataPair)
    (resp : AnnounceResult) (now : Int)
    (rest : List (TransactionMetaDataPair × AnnounceResult))
    (hkey : env.isPrivateKeyValid cfg.privateKey = false) :
    signTransaction env cfg pair resp
      = .error "Invalid private key in bot.json, Please fix to start co-signing NEM blockchain transactions."
    ∧ (automaticTransactionSigningHandler env cfg records pair resp now).records = records
    ∧ (automaticTransactionSigningHandler env cfg records pair resp now).announces = 0
    ∧ (records.find? (fun r => r.transactionHash == getTransactionHash pair) = none →
        ((automaticTransactionSigningHandler env cfg records pair resp now).outcome
            = .signingAborted "Invalid private key in bot.json, Please fix to start co-signing NEM blockchain transactions."
          ∨ (automaticTransactionSigningHandler env cfg records pair resp now).rejectedByLimit))
    ∧ processUnconfirmedPushMessages env cfg records ((pair, resp) :: rest) now
        = processUnconfirmedPushMessages env cfg records rest now := by
  have hthrow : signTransaction env cfg pair resp
      = .error "Invalid private key in bot.json, Please fix to start co-signing NEM blockchain transactions." := by
    unfold signTransaction
    rw [hkey]
    rfl
  have hmain : (automaticTransactionSigningHandler env cfg records pair resp now).records = records
      ∧ (automaticTransactionSigningHandler env cfg records pair resp now).announces = 0
      ∧ (records.find? (fun r => r.transactionHash == getTransactionHash pair) = none →
          ((automaticTransactionSigningHandler env cfg records pair resp now).outcome
              = .signingAborted "Invalid private key in bot.json, Please fix to start co-signing NEM blockchain transactions."
            ∨ (automaticTransactionSigningHandler env cfg records pair resp now).rejectedByLimit)) := by
    unfold automaticTransactionSigningHandler HandlerResult.rejectedByLimit
    cases hf : records.find? (fun r => r.transactionHash == getTransactionHash pair) with
    | some x =>
      refine ⟨by simp [hf], by simp [hf], ?_⟩
      intro hcontra
      exact absurd hcontra (by simp)
    | none =>
      simp only [hf]
      split_ifs with h1 h2
      · exact ⟨rfl, rfl, fun _ => Or.inr (Or.inl rfl)⟩
      · exact ⟨rfl, rfl, fun _ => Or.inr (Or.inr rfl)⟩
      · rw [hthrow]
        exact ⟨rfl, rfl, fun _ => Or.inl rfl⟩
  have hfold : processUnconfirmedPushMessages env cfg records ((pair, resp) :: rest) now
      = processUnconfirmedPushMessages env cfg records rest now := by
    unfold processUnconfirmedPushMessages
    rw [List.foldl_cons]
    congr 1
    by_cases ht : ((pair, resp).1.transaction.type != multisigTransaction) = true
    · simp [ht]
    · rw [Bool.not_eq_true] at ht
      simp [ht, hmain.1, hmain.2.1]
  exact ⟨hthrow, hmain.1, hmain.2.1, hmain.2.2, hfold⟩

/-- Witness for C6: the invalid-key environment evaluated on the standard
candidate — the exact configuration error is thrown, the store stays
empty, nothing is announced, and a push stream containing the candidate
processes the rest exactly as the stream without it. -/
theorem C6_invalid_private_key_confined_witness :
    signTransaction badKeyEnv testConfig testPair (.response 1 "SUCCESS")
      = .error "Invalid private key in bot.json, Please fix to start co-signing NEM blockchain transactions."
    ∧ (automaticTransactionSigningHandler badKeyEnv testConfig [] testPair
        (.response 1 "SUCCESS") 0).records = []
    ∧ (automaticTransactionSigningHandler badKeyEnv testConfig [] testPair
        (.response 1 "SUCCESS") 0).announces = 0
    ∧ processUnconfirmedPushMessages badKeyEnv testConfig [] [(testPair, .response 1 "SUCCESS")] 0
        = processUnconfirmedPushMessages badKeyEnv testConfig [] [] 0 := by
  have h := C6_invalid_private_key_confined badKeyEnv testConfig [] testPair
    (.response 1 "SUCCESS") 0 [] rfl
  exact ⟨h.1, h.2.1, h.2.2.1, h.2.2.2.2⟩

/-- C5: once the handler has issued the broadcast for a candidate (exactly
one announce), the response handler completes without an escaping
exception, and a SignedTransactionRecord is persisted exactly when the
response passes the failure check (code < 2) and carries message SUCCESS:
a failure response (code ≥ 2) persists nothing, and a neutral response
(code < 2 with another message) persists nothing either, leaving the
candidate eligible for a later retry. -/
theorem C5_persist_iff_success (env : ChainEnv) (cfg : BotConfig)
    (records : List SignedTransactionRecord) (pair : TransactionMetaDataPair)
    (code : Int) (message : String) (now : Int)
    (hann : (automaticTransactionSigningHandler env cfg records pair
        (.response code message) now).announces = 1) :
    (∃ b, (automaticTransactionSigningHandler env cfg records pair
        (.response code message) now).outcome = .signAttempted b)
    ∧ ((automaticTransactionSigningHandler env cfg records pair
        (.response code message) now).records ≠ records
        ↔ (code < 2 ∧ message = "SUCCESS"))
    ∧ (code ≥ 2 → (automaticTransactionSigningHandler env cfg records pair
        (.response code message) now).records = records)
    ∧ (code < 2 ∧ message ≠ "SUCCESS" →
        (automaticTransactionSigningHandler env cfg records pair
          (.response code message) now).records = records)
    ∧ (code < 2 ∧ message = "SUCCESS" →
        ∃ r, (automaticTransactionSigningHandler env cfg records pair
            (.response code message) now).records = records ++ [r]
          ∧ r.transactionHash = getTransactionHash pair) := by
  unfold automaticTransactionSigningHandler at hann ⊢
  cases hf : records.find? (fun r => r.transactionHash == getTransactionHash pair) with
  | some x =>
    simp only [hf] at hann
    exact absurd hann (by simp)
  | none =>
    simp only [hf] at hann ⊢
    split_ifs at hann ⊢ with h1 h2
    cases hs : signTransaction env cfg pair (.response code message) with
    | error e =>
        simp only [hs] at hann
        exact absurd hann (by simp)
    | ok b =>
        have hb : b.callbackInvoked
            = (if code ≥ 2 then false else if message == "SUCCESS" then true else false) := by
          unfold signTransaction at hs
          split_ifs at hs
          injection hs with hval
          rw [← hval]
        simp only [hs] at hann ⊢
        by_cases hcb : b.callbackInvoked = true
        · have hsucc : code < 2 ∧ message = "SUCCESS" := by
            rw [hb] at hcb
            split_ifs at hcb with hc hm
            exact ⟨by omega, by simpa using hm⟩
          have happ : ∀ r : SignedTransactionRecord, records ++ [r] ≠ records := by
            intro r hEq
            have := congrArg List.length hEq
            simp at this
          simp only [if_pos hcb]
          refine ⟨⟨true, rfl⟩, ⟨fun _ => hsucc, fun _ => happ _⟩, ?_, ?_, ?_⟩
          · intro hge
            exact absurd hsucc.1 (by omega)
          · intro hneu
            exact absurd hsucc.2 hneu.2
          · intro _
            exact ⟨_, rfl, rfl⟩
        · have hnot : ¬(code < 2 ∧ message = "SUCCESS") := by
            rintro ⟨hclt, hmeq⟩
            rw [hb] at hcb
            rw [if_neg (by omega), hmeq] at hcb
            simp at hcb
          simp only [if_neg hcb]
          exact ⟨⟨false, rfl⟩, ⟨fun hne => absurd rfl hne, fun hok => absurd hok hnot⟩,
            fun _ => by trivial, fun _ => by trivial, fun hok => absurd hok hnot⟩

/-- Evaluation: the clamped aggregate of an empty store is 0. -/
theorem clampedDailyAmount_nil : clampedDailyAmount [] = 0 := rfl

/-- Evaluation: the amount extracted from the fixture candidate is the
inner transfer amount of 10. -/
theorem getTransactionAmount_testPair : getTransactionAmount testPair = 10 := rfl

/-- Evaluation: on the fixture candidate, signTransaction passes the key
and verification checks, announces, and reports the response
disposition. -/
theorem signTransaction_testPair (code : Int) (message : String) :
    signTransaction testEnv testConfig testPair (.response code message)
      = .ok { callbackInvoked := if code ≥ 2 then false
          else if message == "SUCCESS" then true else false } := rfl

/-- Evaluation: one handler invocation on the empty store with a SUCCESS
response persists exactly the fixture row and announces once. -/
theorem handler_success_empty (now : Int) :
    automaticTransactionSigningHandler testEnv testConfig [] testPair (.response 1 "SUCCESS") now
      = { records := [{ multisigXEM := "TESTMULTISIGADDRESS"
                        cosignerXEM := "TESTCOSIGNERADDRESS"
                        transactionHash := "INNERHASHABC"
                        nemNodeData := "alice6.nem.ninja"
                        transactionData := testPair
                        amountXEM := 10
                        createdAt := now }]
          announces := 1
          outcome := .signAttempted true } := by
  simp only [automaticTransactionSigningHandler]
  rw [show List.find? (fun r => r.transactionHash == getTransactionHash testPair)
      ([] : List SignedTransactionRecord) = none from rfl]
  rw [if_neg (by norm_num [clampedDailyAmount_nil, testConfig]),
    if_neg (by norm_num [clampedDailyAmount_nil, getTransactionAmount_testPair, testConfig])]
  rw [signTransaction_testPair]
  rfl

/-- Evaluation: one handler invocation on the empty store with a NEUTRAL
response announces once but persists nothing. -/
theorem handler_neutral_empty (now : Int) :
    automaticTransactionSigningHandler testEnv testConfig [] testPair (.response 1 "NEUTRAL") now
      = { records := [], announces := 1, outcome := .signAttempted false } := by
  simp only [automaticTransactionSigningHandler]
  rw [show List.find? (fun r => r.transactionHash == getTransactionHash testPair)
      ([] : List SignedTransactionRecord) = none from rfl]
  rw [if_neg (by norm_num [clampedDailyAmount_nil, testConfig]),
    if_neg (by norm_num [clampedDailyAmount_nil, getTransactionAmount_testPair, testConfig])]
  rw [signTransaction_testPair]
  rfl

/-- Witness for C5: the fixture candidate with the SUCCESS response (code
1) does persist a record carrying its transaction hash. -/
theorem C5_persist_iff_success_witness :
    ∃ r, (automaticTransactionSigningHandler testEnv testConfig [] testPair
        (.response 1 "SUCCESS") 0).records = [] ++ [r]
      ∧ r.transactionHash = getTransactionHash testPair := by
  have h := C5_persist_iff_success testEnv testConfig [] testPair 1 "SUCCESS" 0
    (by rw [handler_success_empty])
  exact h.2.2.2.2 ⟨by norm_num, rfl⟩

/-- C1 (counterexample): two sequential invocations of the signing
handler on the same candidate are not always one record and one
broadcast — with a NEUTRAL announce response, the first invocation
broadcasts without persisting, so the second invocation broadcasts again:
two announce attempts, zero stored records. -/
theorem C1_two_invocations_counterexample :
    (automaticTransactionSigningHandler testEnv testConfig [] testPair
        (.response 1 "NEUTRAL") 0).announces = 1
    ∧ (automaticTransactionSigningHandler testEnv testConfig
        (automaticTransactionSigningHandler testEnv testConfig [] testPair
          (.response 1 "NEUTRAL") 0).records
        testPair (.response 1 "NEUTRAL") 1).announces = 1
    ∧ (automaticTransactionSigningHandler testEnv testConfig
        (automaticTransactionSigningHandler testEnv testConfig [] testPair
          (.response 1 "NEUTRAL") 0).records
        testPair (.response 1 "NEUTRAL") 1).records = [] := by
  simp [handler_neutral_empty]

/-- C1 (amended): when the first invocation actually persists (its
broadcast response was definitive success, recorded as the outcome
signAttempted true), two sequential invocations with equivalent candidates
for the same hash leave exactly one SignedTransactionRecord for that hash
and one announce in total: the second invocation finds the persisted
record and performs no further action. -/
theorem C1_idempotent_after_success (env : ChainEnv) (cfg : BotConfig)
    (records : List SignedTransactionRecord) (pair1 pair2 : TransactionMetaDataPair)
    (resp1 resp2 : AnnounceResult) (now1 now2 : Int)
    (hhash : getTransactionHash pair2 = getTransactionHash pair1)
    (hsaved : (automaticTransactionSigningHandler env cfg records pair1 resp1 now1).outcome
      = .signAttempted true) :
    (automaticTransactionSigningHandler env cfg records pair1 resp1 now1).announces = 1
    ∧ countSignedRecords records (getTransactionHash pair1) = 0
    ∧ countSignedRecords
        (automaticTransactionSigningHandler env cfg records pair1 resp1 now1).records
        (getTransactionHash pair1) = 1
    ∧ (automaticTransactionSigningHandler env cfg
        (automaticTransactionSigningHandler env cfg records pair1 resp1 now1).records
        pair2 resp2 now2)
      = { records := (automaticTransactionSigningHandler env cfg records pair1 resp1 now1).records
          announces := 0
          outcome := .alreadySigned } := by
  obtain ⟨newRec, hres1, hrechash, hfnone⟩ :
      ∃ rec : SignedTransactionRecord,
        automaticTransactionSigningHandler env cfg records pair1 resp1 now1
          = { records := records ++ [rec]
              announces := 1
              outcome := .signAttempted true }
        ∧ rec.transactionHash = getTransactionHash pair1
        ∧ records.find? (fun r => r.transactionHash == getTransactionHash pair1) = none := by
    unfold automaticTransactionSigningHandler at hsaved ⊢
    cases hf : records.find? (fun r => r.transactionHash == getTransactionHash pair1) with
    | some x =>
      simp [hf] at hsaved
    | none =>
      simp only [hf] at hsaved ⊢
      split_ifs at hsaved ⊢ with h1 h2
      cases hs : signTransaction env cfg pair1 resp1 with
      | error e =>
        simp [hs] at hsaved
      | ok b =>
        simp only [hs] at hsaved ⊢
        by_cases hcb : b.callbackInvoked = true
        · simp only [if_pos hcb]
          exact ⟨_, by trivial, by trivial, by trivial⟩
        · simp only [if_neg hcb] at hsaved
          simp at hsaved
  have hfilter : records.filter (fun r => r.transactionHash == getTransactionHash pair1) = [] :=
    List.filter_eq_nil_iff.mpr (List.find?_eq_none.mp hfnone)
  have hcount0 : countSignedRecords records (getTransactionHash pair1) = 0 := by
    unfold countSignedRecords
    rw [hfilter]
    rfl
  refine ⟨?_, hcount0, ?_, ?_⟩
  · rw [hres1]
  · rw [hres1]
    unfold countSignedRecords
    rw [List.filter_append, hfilter]
    simp [hrechash]
  · have hfind2 : (records ++ [newRec]).find?
        (fun r => r.transactionHash == getTransactionHash pair2) = some newRec := by
      rw [hhash, List.find?_append, hfnone]
      simp [hrechash]
    rw [hres1]
    simp only [automaticTransactionSigningHandler, hfind2]

/-- Witness for C1 (amended): the fixture candidate with a SUCCESS
response on the empty store — exactly one record ends up stored for the
hash, and the second invocation finds it and performs no further
action. -/
theorem C1_idempotent_after_success_witness :
    countSignedRecords (automaticTransactionSigningHandler testEnv testConfig [] testPair
        (.response 1 "SUCCESS") 0).records (getTransactionHash testPair) = 1
    ∧ (automaticTransactionSigningHandler testEnv testConfig
        (automaticTransactionSigningHandler testEnv testConfig [] testPair
          (.response 1 "SUCCESS") 0).records
        testPair (.response 1 "SUCCESS") 1)
      = { records := (automaticTransactionSigningHandler testEnv testConfig [] testPair
            (.response 1 "SUCCESS") 0).records
          announces := 0
          outcome := .alreadySigned } := by
  have h := C1_idempotent_after_success testEnv testConfig [] testPair testPair
    (.response 1 "SUCCESS") (.response 1 "SUCCESS") 0 1 rfl (by rw [handler_success_empty])
  exact ⟨h.2.2.1, h.2.2.2⟩

/-- C3 (counterexample): ceiling 10, stored aggregate exactly 10,
candidate amount 0 — so aggregate plus amount equals the ceiling and does
not exceed it — yet the handler rejects before signing through its
aggregate-already-meets-the-ceiling branch: the claimed "allowed iff
A + a ≤ C" fails at A = C, a = 0. -/
theorem C3_boundary_counterexample :
    (automaticTransactionSigningHandler testEnv c3Config [c3PriorRecord] c3ZeroPair
        (.response 1 "SUCCESS") 0).outcome = .limitReached
    ∧ (automaticTransactionSigningHandler testEnv c3Config [c3PriorRecord] c3ZeroPair
        (.response 1 "SUCCESS") 0).announces = 0
    ∧ (automaticTransactionSigningHandler testEnv c3Config [c3PriorRecord] c3ZeroPair
        (.response 1 "SUCCESS") 0).records = [c3PriorRecord]
    ∧ aggregateAmountXEM [c3PriorRecord] + getTransactionAmount c3ZeroPair
        ≤ c3Config.dailyAmount := by
  have hagg : clampedDailyAmount [c3PriorRecord] = 10 := by
    norm_num [clampedDailyAmount, aggregateAmountXEM, c3PriorRecord]
  have hcond : c3Config.dailyAmount > 0 ∧ clampedDailyAmount [c3PriorRecord] ≥ c3Config.dailyAmount := by
    rw [hagg]
    norm_num [c3Config]
  have hres : automaticTransactionSigningHandler testEnv c3Config [c3PriorRecord] c3ZeroPair
      (.response 1 "SUCCESS") 0
      = { records := [c3PriorRecord], announces := 0, outcome := .limitReached } := by
    simp only [automaticTransactionSigningHandler]
    rw [show List.find? (fun r => r.transactionHash == getTransactionHash c3ZeroPair)
        [c3PriorRecord] = none from rfl]
    rw [if_pos hcond]
  refine ⟨by rw [hres], by rw [hres], by rw [hres], ?_⟩
  rw [show getTransactionAmount c3ZeroPair = 0 from rfl]
  norm_num [aggregateAmountXEM, c3PriorRecord, c3Config]

/-- C3 (amended): with a positive ceiling configured and no record stored
yet for the candidate's hash, the handler rejects before signing — no
broadcast, no record persisted — exactly when the clamped stored
aggregate A already meets the ceiling C (A ≥ C) or adding the candidate's
amount a would pass it (A + a > C); it proceeds to the signing step
exactly when A < C and A + a ≤ C. -/
theorem C3_rate_limit_decision (env : ChainEnv) (cfg : BotConfig)
    (records : List SignedTransactionRecord) (pair : TransactionMetaDataPair)
    (resp : AnnounceResult) (now : Int)
    (hnone : records.find? (fun r => r.transactionHash == getTransactionHash pair) = none)
    (hpos : 0 < cfg.dailyAmount) :
    ((automaticTransactionSigningHandler env cfg records pair resp now).rejectedByLimit
      ↔ (clampedDailyAmount records ≥ cfg.dailyAmount
        ∨ clampedDailyAmount records + getTransactionAmount pair > cfg.dailyAmount))
    ∧ ((automaticTransactionSigningHandler env cfg records pair resp now).rejectedByLimit →
        (automaticTransactionSigningHandler env cfg records pair resp now).records = records
        ∧ (automaticTransactionSigningHandler env cfg records pair resp now).announces = 0)
    ∧ ((automaticTransactionSigningHandler env cfg records pair resp now).proceededToSigning
      ↔ (clampedDailyAmount records < cfg.dailyAmount
        ∧ clampedDailyAmount records + getTransactionAmount pair ≤ cfg.dailyAmount)) := by
  unfold automaticTransactionSigningHandler HandlerResult.rejectedByLimit
    HandlerResult.proceededToSigning
  simp only [hnone]
  split_ifs with h1 h2
  · refine ⟨⟨fun _ => Or.inl h1.2, fun _ => Or.inl rfl⟩, fun _ => ⟨rfl, rfl⟩, ⟨?_, ?_⟩⟩
    · rintro (⟨e, he⟩ | ⟨bb, hb⟩)
      · simp at he
      · simp at hb
    · rintro ⟨hlt, _⟩
      exact absurd hlt (not_lt.mpr h1.2)
  · refine ⟨⟨fun _ => Or.inr h2.2, fun _ => Or.inr rfl⟩, fun _ => ⟨rfl, rfl⟩, ⟨?_, ?_⟩⟩
    · rintro (⟨e, he⟩ | ⟨bb, hb⟩)
      · simp at he
      · simp at hb
    · rintro ⟨_, hle⟩
      exact absurd h2.2 (not_lt.mpr hle)
  · have hA : clampedDailyAmount records < cfg.dailyAmount := by
      rcases not_and_or.mp h1 with hc | hge
      · exact absurd hpos (by simpa using hc)
      · exact not_le.mp hge
    have ha : clampedDailyAmount records + getTransactionAmount pair ≤ cfg.dailyAmount := by
      rcases not_and_or.mp h2 with hc | hgt
      · exact absurd hpos (by simpa using hc)
      · exact not_lt.mp hgt
    cases hs : signTransaction env cfg pair resp with
    | error e =>
      simp only [hs]
      refine ⟨⟨?_, ?_⟩, ?_, ⟨fun _ => ⟨hA, ha⟩, fun _ => Or.inl ⟨e, rfl⟩⟩⟩
      · rintro (hx | hx) <;> simp at hx
      · rintro (hx | hx)
        · exact absurd hx (not_le.mpr hA)
        · exact absurd hx (not_lt.mpr ha)
      · rintro (hx | hx) <;> simp at hx
    | ok b =>
      simp only [hs]
      by_cases hcb : b.callbackInvoked = true
      · simp only [if_pos hcb]
        refine ⟨⟨?_, ?_⟩, ?_, ⟨fun _ => ⟨hA, ha⟩, fun _ => Or.inr ⟨true, rfl⟩⟩⟩
        · rintro (hx | hx) <;> simp at hx
        · rintro (hx | hx)
          · exact absurd hx (not_le.mpr hA)
          · exact absurd hx (not_lt.mpr ha)
        · rintro (hx | hx) <;> simp at hx
      · simp only [if_neg hcb]
        refine ⟨⟨?_, ?_⟩, ?_, ⟨fun _ => ⟨hA, ha⟩, fun _ => Or.inr ⟨false, rfl⟩⟩⟩
        · rintro (hx | hx) <;> simp at hx
        · rintro (hx | hx)
          · exact absurd hx (not_le.mpr hA)
          · exact absurd hx (not_lt.mpr ha)
        · rintro (hx | hx) <;> simp at hx

/-- Witness for C3 (amended): empty store, ceiling 100, candidate amount
10 — aggregate 0 is below the ceiling and 0 + 10 ≤ 100, so the handler
proceeds to the signing step. -/
theorem C3_rate_limit_decision_witness :
    (automaticTransactionSigningHandler testEnv testConfig [] testPair
        (.response 1 "SUCCESS") 0).proceededToSigning := by
  have h := C3_rate_limit_decision testEnv testConfig [] testPair (.response 1 "SUCCESS") 0
    rfl (by norm_num [testConfig])
  exact h.2.2.mpr ⟨by norm_num [clampedDailyAmount_nil, testConfig],
    by norm_num [clampedDailyAmount_nil, getTransactionAmount_testPair, testConfig]⟩

/-- Witness for C9: delivering height 1000 twice for the sign-socket
module on an empty store leaves exactly one row, and the second delivery
changes nothing. -/
theorem C9_height_store_unique_witness :
    countHeightRecords (onNewBlockMessage [] "sign-socket" 1000 5) "sign-socket" 1000 = 1
    ∧ onNewBlockMessage (onNewBlockMessage [] "sign-socket" 1000 5) "sign-socket" 1000 7
        = onNewBlockMessage [] "sign-socket" 1000 5 := by
  have h := C9_height_store_unique [] "sign-socket" 1000 5 7
  exact ⟨h.2.2.1 rfl, h.1⟩

/-- Witness for C8: a store whose only sign-socket row was created at
time 0 is stale at check time 1,000,000 ms, so the check performs the
switch sequence. -/
theorem C8_staleness_switch_iff_witness :
    blockDelayAuditCheck
      (.ok (findLatestHeight [⟨"sign-socket", 100, 0⟩] "sign-socket")) 1000000
      = nodeSwitchSequence := by
  have h := C8_staleness_switch_iff [⟨"sign-socket", 100, 0⟩] "sign-socket" 1000000
  exact h.1.mpr (Or.inr ⟨⟨"sign-socket", 100, 0⟩, rfl, by norm_num⟩)

end NemBot
